import Mathlib

/-!
Shallow embedding of the Binance DCA bot core (`src/bot.js` and
`src/services/ta-api.js`): a small JavaScript-number semantics (`JNum`:
finite rationals, signed infinities, NaN — no signed zero, which none of
the modelled code paths distinguish), the weight calculator
(`calculateWeight`), the order-execution path (`placeOrder`) as an event
trace, the startup/validation loop (`runBot`), and the indicator adapter
(`TAAPI.getSMA`) symbol mapping and retry loop.
-/

set_option allowUnsafeReducibility true in
attribute [semireducible] Rat.mul Rat.inv Rat.add Rat.sub

namespace DcaBot

/-- JavaScript double arithmetic, abstracted to exact rationals plus the two
infinities and NaN. `inf true` is positive infinity, `inf false` negative. -/
inductive JNum where
  | nan : JNum
  | inf : Bool → JNum
  | fin : ℚ → JNum
deriving DecidableEq

/-- Unary minus on JS numbers. -/
def JNum.neg : JNum → JNum
  | nan => nan
  | inf b => inf (!b)
  | fin q => fin (-q)

/-- JS addition. -/
def JNum.add : JNum → JNum → JNum
  | nan, _ => nan
  | _, nan => nan
  | inf a, inf b => if a = b then inf a else nan
  | inf a, fin _ => inf a
  | fin _, inf b => inf b
  | fin a, fin b => fin (a + b)

/-- JS subtraction, `a - b = a + (-b)`. -/
def JNum.sub (a b : JNum) : JNum := a.add b.neg

/-- JS multiplication. -/
def JNum.mul : JNum → JNum → JNum
  | nan, _ => nan
  | _, nan => nan
  | inf a, inf b => inf (a == b)
  | inf a, fin q => if q = 0 then nan else inf (a == decide (0 < q))
  | fin q, inf b => if q = 0 then nan else inf (b == decide (0 < q))
  | fin a, fin b => fin (a * b)

/-- JS division (a finite number divided by zero is a signed infinity,
`0/0` is NaN, anything over an infinity is zero). -/
def JNum.div : JNum → JNum → JNum
  | nan, _ => nan
  | _, nan => nan
  | inf _, inf _ => nan
  | inf a, fin q => inf (a == decide (0 ≤ q))
  | fin _, inf _ => fin 0
  | fin a, fin b =>
      if b = 0 then (if a = 0 then nan else inf (decide (0 < a))) else fin (a / b)

/-- JS strict greater-than: any comparison against NaN is false. -/
def JNum.gt : JNum → JNum → Bool
  | nan, _ => false
  | _, nan => false
  | inf a, inf b => a && !b
  | inf a, fin _ => a
  | fin _, inf b => !b
  | fin a, fin b => decide (b < a)

instance : Neg JNum := ⟨JNum.neg⟩
instance : Add JNum := ⟨JNum.add⟩
instance : Sub JNum := ⟨JNum.sub⟩
instance : Mul JNum := ⟨JNum.mul⟩
instance : Div JNum := ⟨JNum.div⟩

/-- A JS value that is either a number or `undefined`; `undefined` coerces
to NaN wherever arithmetic touches it. -/
def optToJ : Option ℚ → JNum
  | none => JNum.nan
  | some q => JNum.fin q

/-- Round a rational to the nearest integer, ties toward plus infinity:
the floor of `x + 1/2`, computed with floor division so it evaluates. -/
def jsRound (x : ℚ) : ℤ :=
  (x + 1/2).num.fdiv ((x + 1/2).den : ℤ)

/-- Model of `Number.prototype.toFixed(2)` followed by the numeric coercion the rest
of the code applies: round a finite value to two decimal places (ties go
up, as `toFixed` specifies), leave infinities and NaN alone. -/
def round2 : JNum → JNum
  | JNum.nan => JNum.nan
  | JNum.inf b => JNum.inf b
  | JNum.fin q => JNum.fin ((jsRound (q * 100) : ℚ) / 100)

/-- A JS number is not negative: NaN carries no sign, `inf true` and
nonnegative finite values qualify. -/
def JNum.nonneg : JNum → Prop
  | JNum.nan => True
  | JNum.inf b => b = true
  | JNum.fin q => 0 ≤ q

/-- Weighting parameters of a trade (`trade.weight` in `trades.js`). -/
structure WeightSpec where
  maxATHFactor : ℚ
  ATH : ℚ
  mayerMultipleAvg : ℚ
  mayerMultipleMax : ℚ
deriving DecidableEq

/-- One configured trade (an entry of the `TRADES` list). -/
structure Trade where
  asset : String
  currency : String
  quantity : Option ℚ := none
  quoteOrderQty : Option ℚ := none
  schedule : Option String := none
  weight : Option WeightSpec := none
deriving DecidableEq

/-- The mayer multiple, `currentPrice / sma` in `calculateWeight`; `sma` is the value returned
by `TAAPI.getSMA`, which is `undefined` when all retries were exhausted. -/
def mayerMultiple (currentPrice : ℚ) (sma : Option ℚ) : JNum :=
  JNum.fin currentPrice / optToJ sma

/-- The ATH factor, `athFactor = weight.maxATHFactor - currentPrice / weight.ATH`, squared
(`athFactor *= athFactor` in the source). -/
def athFactor (w : WeightSpec) (currentPrice : ℚ) : JNum :=
  let a := JNum.fin w.maxATHFactor - JNum.fin currentPrice / JNum.fin w.ATH
  a * a

/-- The weighting constant, `mayerWeightConstant = 1 / (1 - (weight.mayerMultipleAvg / weight.mayerMultipleMax))`. -/
def mayerWeightConstant (w : WeightSpec) : JNum :=
  JNum.fin 1 / (JNum.fin 1 - JNum.fin w.mayerMultipleAvg / JNum.fin w.mayerMultipleMax)

/-- The current weight multiple, `currentWeightMultiple = 1 - mayerMultiple / weight.mayerMultipleMax`. -/
def currentWeightMultiple (w : WeightSpec) (mm : JNum) : JNum :=
  JNum.fin 1 - mm / JNum.fin w.mayerMultipleMax

/-- The mayer factor, `mayerFactor = mayerWeightConstant * currentWeightMultiple`, set to `0`
unless it is strictly positive (`mayerFactor = (mayerFactor > 0) ? mayerFactor : 0`). -/
def mayerFactor (w : WeightSpec) (mm : JNum) : JNum :=
  let m := mayerWeightConstant w * currentWeightMultiple w mm
  if m.gt (JNum.fin 0) then m else JNum.fin 0

/-- The body of `calculateWeight`: `quoteOrderQty * mayerFactor * athFactor`,
then `toFixed(2)`. `quoteOrderQty` may be absent (a quantity-only trade) and
`sma` may be absent (retries exhausted); both flow through as NaN. -/
def calculateWeight (quoteOrderQty : Option ℚ) (w : WeightSpec) (sma : Option ℚ)
    (bidPrice : ℚ) : JNum :=
  let mm := mayerMultiple bidPrice sma
  round2 (optToJ quoteOrderQty * mayerFactor w mm * athFactor w bidPrice)

/-- The weight spec of the worked example in the repository documentation. -/
def exW : WeightSpec :=
  { maxATHFactor := 1, ATH := 50000, mayerMultipleAvg := 6/5, mayerMultipleMax := 12/5 }

/-- Symbol-currency substitution in `TAAPI.getSMA`:
`currency = currency == "USD" ? "USDT" : "USD"`. -/
def getSMA_currency (currency : String) : String :=
  if currency = "USD" then "USDT" else "USD"

/-- The symbol `getSMA` sends upstream: `asset + "/" + currency` after the
substitution. -/
def getSMA_symbol (asset currency : String) : String :=
  asset ++ "/" ++ getSMA_currency currency

/-- Outcome of one fetch attempt inside `getSMA`: a response with a non-null
`error` field, a thrown transport error (both retried), or a value. -/
inductive FetchOutcome where
  | errBody (e : String)
  | transportErr
  | value (v : ℚ)
deriving DecidableEq

/-- The retry loop of `getSMA` (`for (let tries = 1; tries < 3; tries++)`):
two attempts; the first successful attempt's value is returned and falling
off the loop returns `undefined` (here `none`). -/
def getSMA_run (a1 a2 : FetchOutcome) : Option ℚ :=
  match a1 with
  | FetchOutcome.value v => some v
  | _ =>
    match a2 with
    | FetchOutcome.value v => some v
    | _ => none

/-- The constant `NUM_TRADE_THRESHOLD`: number of approximate trades available before the
low-balance warning message. -/
def NUM_TRADE_THRESHOLD : ℚ := 5

/-- Observable side effects of one `placeOrder` run, in order. -/
inductive Event where
  | fetchSMA (symbol : String)
  | fetchTicker (pair : String)
  | skipNote (pair : String)
  | marketBuy (pair : String) (quantity : Option ℚ) (quoteOrderQty : Option JNum)
  | saveOrder
  | notifySendGrid (subject : String)
  | notifyTelegramSuccess (pair : String)
  | lowBalanceWarn (currency : String)
  | notifySendGridFail (subject : String) (body : String)
  | notifyTelegramFail (pair : String) (body : String)
  | balanceCrash
deriving DecidableEq

/-- Recognizer for the order-submission event. -/
def isBuy : Event → Bool
  | Event.marketBuy _ _ _ => true
  | _ => false

/-- Recognizer for the indicator-fetch event. -/
def isFetchSMA : Event → Bool
  | Event.fetchSMA _ => true
  | _ => false

/-- Recognizer for the persistence (`mongoDb.saveOrder`) event. -/
def isSave : Event → Bool
  | Event.saveOrder => true
  | _ => false

/-- Recognizer for the SendGrid failure notification. -/
def isSendGridFail : Event → Bool
  | Event.notifySendGridFail _ _ => true
  | _ => false

/-- Recognizer for the Telegram failure notification. -/
def isTelegramFail : Event → Bool
  | Event.notifyTelegramFail _ _ => true
  | _ => false

/-- JS truthiness of an optional string (`undefined`, `null` and `""` are falsy). -/
def truthyOptStr : Option String → Bool
  | none => false
  | some s => !(s == "")

/-- JS truthiness of an optional number (`undefined` and `0` are falsy). -/
def truthyQ : Option ℚ → Bool
  | none => false
  | some q => !(q == 0)

/-- JS truthiness of `response.orderId` (`undefined` and `0` are falsy). -/
def truthyOrderId : Option Nat → Bool
  | none => false
  | some n => !(n == 0)

/-- Loose equality `updatedQuoteOrderQty == 0`: `undefined == 0` is false, a
numeric string coerces to its value, NaN and the infinities are not `0`. -/
def looseEqZero : Option JNum → Bool
  | none => false
  | some (JNum.fin q) => q == 0
  | some _ => false

/-- The order-placement response returned by `binance.marketBuy`. -/
structure OrderResponse where
  orderId : Option Nat
  msg : Option String
deriving DecidableEq

/-- One entry of `accountInfo.balances`. -/
structure Balance where
  asset : String
  free : ℚ
deriving DecidableEq

/-- External responses observed by one `placeOrder` run and by `runBot`:
the indicator result, the book-ticker bid price, the order response, the
`totalCost` field of `binance.getOrderDetails`, the post-trade balances,
and the account-information fields the connectivity check reads. -/
structure Env where
  smaResult : Option ℚ
  bidPrice : ℚ
  orderResponse : OrderResponse
  totalCost : ℚ
  balances : List Balance
  accountMsg : Option String
  canTrade : Bool

/-- The weighting eligibility test of `placeOrder`:
`weight != null && currency === "USD"`. -/
def weighting (t : Trade) : Bool :=
  t.weight.isSome && (t.currency == "USD")

/-- The spend amount `updatedQuoteOrderQty` that `placeOrder` resolves:
the weight calculation when eligible, otherwise the static `quoteOrderQty`
(which may be absent). -/
def resolvedSpend (t : Trade) (env : Env) : Option JNum :=
  match t.weight with
  | some w =>
      if t.currency = "USD" then
        some (calculateWeight t.quoteOrderQty w env.smaResult env.bidPrice)
      else t.quoteOrderQty.map JNum.fin
  | none => t.quoteOrderQty.map JNum.fin

/-- The failure text `response.msg || generic`, with the generic fallback
also taken when `msg` is the empty string (falsy in JS). -/
def errorText (msg : Option String) (pair : String) : String :=
  match msg with
  | some m => if m = "" then "Unexpected error placing buy order for " ++ pair else m
  | none => "Unexpected error placing buy order for " ++ pair

/-- The indicator and ticker fetches issued when the weighting branch runs. -/
def fetchEvents (t : Trade) : List Event :=
  if weighting t then
    [Event.fetchSMA (getSMA_symbol t.asset t.currency),
     Event.fetchTicker (t.asset ++ t.currency)]
  else []

/-- The post-trade balance check: find the trade currency's balance entry
(reading `.free` of a missing entry would throw) and compare
`details.totalCost * NUM_TRADE_THRESHOLD > balance.free`. -/
def balanceEvents (currency : String) (totalCost : ℚ) (balances : List Balance) :
    List Event :=
  match balances.find? (fun b => b.asset == currency) with
  | none => [Event.balanceCrash]
  | some b =>
      if totalCost * NUM_TRADE_THRESHOLD > b.free then [Event.lowBalanceWarn currency]
      else []

/-- Side effects of the success branch of `placeOrder`: persist, notify both
channels, then the balance check. -/
def successEvents (t : Trade) (env : Env) : List Event :=
  [Event.saveOrder,
   Event.notifySendGrid ("Buy order executed (" ++ (t.asset ++ t.currency) ++ ")"),
   Event.notifyTelegramSuccess (t.asset ++ t.currency)]
    ++ balanceEvents t.currency env.totalCost env.balances

/-- Side effects of the failure branch of `placeOrder`: one failure
notification per channel, nothing persisted. -/
def failureEvents (t : Trade) (env : Env) : List Event :=
  [Event.notifySendGridFail ("Buy order failed(" ++ (t.asset ++ t.currency) ++ ")")
      (errorText env.orderResponse.msg (t.asset ++ t.currency)),
   Event.notifyTelegramFail (t.asset ++ t.currency)
      (errorText env.orderResponse.msg (t.asset ++ t.currency))]

/-- The event trace of one `placeOrder` run: resolve the spend amount, skip
with a notification when it is (loosely) zero, otherwise submit the market
buy and run the success or failure branch on the response. -/
def placeOrder (t : Trade) (env : Env) : List Event :=
  if looseEqZero (resolvedSpend t env) then
    fetchEvents t ++ [Event.skipNote (t.asset ++ t.currency)]
  else
    fetchEvents t
      ++ [Event.marketBuy (t.asset ++ t.currency) t.quantity (resolvedSpend t env)]
      ++ (if truthyOrderId env.orderResponse.orderId then successEvents t env
          else failureEvents t env)

/-- Static configuration read by `runBot`: the Binance credentials and the
`TRADES` list. -/
structure Config where
  binanceKey : Option String
  binanceSecret : Option String
  trades : List Trade

/-- Model of `checkForParameters`: false when a credential is missing or the trade
list is empty. -/
def checkForParameters (cfg : Config) : Bool :=
  truthyOptStr cfg.binanceKey && truthyOptStr cfg.binanceSecret
    && !cfg.trades.isEmpty

/-- The per-trade invalidity test of the `runBot` loop:
`(!quantity && !quoteOrderQty) || !asset || !currency`. -/
def invalidTrade (t : Trade) : Bool :=
  (!truthyQ t.quantity && !truthyQ t.quoteOrderQty) || t.asset == "" || t.currency == ""

/-- The conflicting-size test of the `runBot` loop:
`quantity && quoteOrderQty`. -/
def conflictTrade (t : Trade) : Bool :=
  truthyQ t.quantity && truthyQ t.quoteOrderQty

/-- What the `runBot` loop did with one configured trade. -/
inductive SchedEvent where
  | skippedInvalid
  | executedNow (events : List Event)
  | scheduled (schedule : String)
deriving DecidableEq

/-- The message of the error thrown on a conflicting trade. -/
def conflictMsg : String :=
  "Error: You can not have both quantity and quoteOrderQty options at the same time."

/-- The `runBot` loop over the trade list, in order: skip invalid trades,
throw on a conflicting trade (stopping the loop), execute unscheduled trades
immediately, register scheduled ones. Returns the processed prefix and the
thrown error, if any. -/
def processTrades (env : Env) : List Trade → List SchedEvent × Option String
  | [] => ([], none)
  | t :: ts =>
    if invalidTrade t then
      let r := processTrades env ts
      (SchedEvent.skippedInvalid :: r.1, r.2)
    else if conflictTrade t then
      ([], some conflictMsg)
    else if truthyOptStr t.schedule then
      let r := processTrades env ts
      (SchedEvent.scheduled (t.schedule.getD "") :: r.1, r.2)
    else
      let r := processTrades env ts
      (SchedEvent.executedNow (placeOrder t env) :: r.1, r.2)

/-- Outcome of `runBot`: parameter/connectivity checks returned early, the
connectivity check threw, the loop threw on a conflicting trade (no startup
summary), or the run completed and the startup summary was sent. -/
inductive RunResult where
  | notStarted
  | connError (msg : String)
  | conflictAbort (done : List SchedEvent)
  | started (done : List SchedEvent)
deriving DecidableEq

/-- Model of `runBot`: parameter check, connectivity check, then the trade loop,
followed (only when no trade threw) by the startup summary notification. -/
def runBot (cfg : Config) (env : Env) : RunResult :=
  if !checkForParameters cfg then RunResult.notStarted
  else if truthyOptStr env.accountMsg then RunResult.connError (env.accountMsg.getD "")
  else if !env.canTrade then RunResult.notStarted
  else
    match processTrades env cfg.trades with
    | (evs, some _) => RunResult.conflictAbort evs
    | (evs, none) => RunResult.started evs

/-! Concrete fixtures used by the witnesses and counterexamples. -/

/-- A weighted trade used for the zero-spend and missing-SMA scenarios. -/
def c2t : Trade :=
  { asset := "BTC", currency := "USD", quoteOrderQty := some 100, weight := some exW }

/-- An environment in which both indicator fetch attempts failed. -/
def c2env : Env :=
  { smaResult := getSMA_run (FetchOutcome.errBody "rate limit") FetchOutcome.transportErr,
    bidPrice := 25000,
    orderResponse := { orderId := some 1, msg := none },
    totalCost := 25,
    balances := [{ asset := "USD", free := 1000 }],
    accountMsg := none,
    canTrade := true }

/-- A plain unweighted trade spending 50 USD. -/
def t6 : Trade := { asset := "BTC", currency := "USD", quoteOrderQty := some 50 }

/-- A successful order with a totalCost of 50 and a free balance of 100. -/
def env6a : Env :=
  { smaResult := none, bidPrice := 1,
    orderResponse := { orderId := some 77, msg := none },
    totalCost := 50, balances := [{ asset := "USD", free := 100 }],
    accountMsg := none, canTrade := true }

/-- A successful order with a totalCost of 50 and a free balance of 500. -/
def env6b : Env :=
  { smaResult := none, bidPrice := 1,
    orderResponse := { orderId := some 77, msg := none },
    totalCost := 50, balances := [{ asset := "USD", free := 500 }],
    accountMsg := none, canTrade := true }

/-- A failed order response with an upstream message. -/
def env7 : Env :=
  { smaResult := none, bidPrice := 1,
    orderResponse := { orderId := none, msg := some "Account has insufficient balance" },
    totalCost := 0, balances := [], accountMsg := none, canTrade := true }

/-- A conflicting weight spec: `mayerMultipleAvg = mayerMultipleMax = 2`. -/
def w44 : WeightSpec :=
  { maxATHFactor := 1, ATH := 50000, mayerMultipleAvg := 2, mayerMultipleMax := 2 }

/-- A weighted USD trade carrying the conflicting weight spec. -/
def t44 : Trade :=
  { asset := "BTC", currency := "USD", quoteOrderQty := some 100, weight := some w44 }

/-- A configuration with credentials whose only trade has the conflicting
weight spec. -/
def cfg4 : Config :=
  { binanceKey := some "key", binanceSecret := some "secret", trades := [t44] }

/-- An ordinary environment for the conflicting-weight firing. -/
def env4 : Env :=
  { smaResult := some 20000, bidPrice := 25000,
    orderResponse := { orderId := some 5, msg := none },
    totalCost := 100, balances := [{ asset := "USD", free := 10000 }],
    accountMsg := none, canTrade := true }

/-- A valid unscheduled trade placed before the conflicting one. -/
def tGood : Trade := { asset := "ETH", currency := "USD", quoteOrderQty := some 50 }

/-- A trade with both `quantity` and `quoteOrderQty` set. -/
def tConflict : Trade :=
  { asset := "BTC", currency := "USD", quantity := some (1/100), quoteOrderQty := some 50 }

/-- A configuration whose second trade is the conflicting one. -/
def cfg3 : Config :=
  { binanceKey := some "key", binanceSecret := some "secret",
    trades := [tGood, tConflict] }

/-- An environment in which the first trade's immediate order succeeds. -/
def env3 : Env :=
  { smaResult := none, bidPrice := 1,
    orderResponse := { orderId := some 9, msg := none },
    totalCost := 50, balances := [{ asset := "USD", free := 10000 }],
    accountMsg := none, canTrade := true }

/-! Arithmetic helper lemmas about the JS-number semantics. -/

theorem nan_div (a : JNum) : JNum.nan / a = JNum.nan := by cases a <;> rfl

theorem div_nan (a : JNum) : a / JNum.nan = JNum.nan := by cases a <;> rfl

theorem nan_mul (a : JNum) : JNum.nan * a = JNum.nan := by cases a <;> rfl

theorem mul_nan (a : JNum) : a * JNum.nan = JNum.nan := by cases a <;> rfl

theorem sub_nan (a : JNum) : a - JNum.nan = JNum.nan := by cases a <;> rfl

theorem fin_mul_fin (a b : ℚ) : JNum.fin a * JNum.fin b = JNum.fin (a * b) := rfl

theorem fin_sub_fin (a b : ℚ) : JNum.fin a - JNum.fin b = JNum.fin (a - b) := by
  show JNum.fin (a + -b) = JNum.fin (a - b)
  rw [← sub_eq_add_neg]

theorem fin_div_fin (a b : ℚ) (h : b ≠ 0) :
    JNum.fin a / JNum.fin b = JNum.fin (a / b) := by
  show JNum.div (JNum.fin a) (JNum.fin b) = JNum.fin (a / b)
  simp [JNum.div, h]

theorem round2_fin_zero : round2 (JNum.fin 0) = JNum.fin 0 := by decide

/-- C1: For the inputs `baseQuoteOrderQty=100`,
`weight={maxATHFactor:1.0, ATH:50000, mayerMultipleAvg:1.2, mayerMultipleMax:2.4}`,
`movingAverage=20000`, `currentPrice=25000`, the weight calculation produces
`mayerMultiple = 1.25`, `mayerWeightConstant = 2`,
`currentWeightMultiple = 1 - 1.25/2.4`,
`mayerFactor = mayerWeightConstant * currentWeightMultiple`,
`athFactor = (1.0 - 25000/50000)^2 = 0.25`, and an adjusted spend of
`baseQuoteOrderQty * mayerFactor * athFactor` rounded to two decimal places,
equal to `23.96`. -/
theorem calculateWeight_example_values :
    mayerMultiple 25000 (some 20000) = JNum.fin (5/4) ∧
    mayerWeightConstant exW = JNum.fin 2 ∧
    currentWeightMultiple exW (JNum.fin (5/4)) = JNum.fin (1 - (5/4) / (12/5)) ∧
    mayerFactor exW (JNum.fin (5/4))
      = mayerWeightConstant exW * currentWeightMultiple exW (JNum.fin (5/4)) ∧
    athFactor exW 25000 = JNum.fin ((1 - 25000/50000) * (1 - 25000/50000)) ∧
    athFactor exW 25000 = JNum.fin (1/4) ∧
    calculateWeight (some 100) exW (some 20000) 25000 = JNum.fin (2396/100) := by
  decide

/-- C9: for every input combination, the `mayerFactor` value actually used
in the adjusted-spend product — the value after the zero-floor clamp — is
never negative. -/
theorem mayerFactor_never_negative (w : WeightSpec) (mm : JNum) :
    (mayerFactor w mm).nonneg := by
  unfold mayerFactor
  rcases h : mayerWeightConstant w * currentWeightMultiple w mm with _ | b | q
  · simp [JNum.gt, JNum.nonneg]
  · cases b
    · simp [JNum.gt, JNum.nonneg]
    · simp [JNum.gt, JNum.nonneg]
  · by_cases hq : 0 < q
    · simp [JNum.gt, hq, JNum.nonneg]
      exact le_of_lt hq
    · simp [JNum.gt, hq, JNum.nonneg]

/-! The skip path of `placeOrder` and the behaviour on a missing moving
average. -/

theorem filter_isBuy_fetchEvents (t : Trade) : (fetchEvents t).filter isBuy = [] := by
  unfold fetchEvents
  split <;> rfl

theorem placeOrder_skip_shape (t : Trade) (env : Env)
    (h : looseEqZero (resolvedSpend t env) = true) :
    (placeOrder t env).filter isBuy = [] ∧
    Event.skipNote (t.asset ++ t.currency) ∈ placeOrder t env := by
  have hpo : placeOrder t env
      = fetchEvents t ++ [Event.skipNote (t.asset ++ t.currency)] := by
    unfold placeOrder
    simp [h]
  constructor
  · rw [hpo, List.filter_append, filter_isBuy_fetchEvents]
    rfl
  · rw [hpo]
    exact List.mem_append_right _ (List.mem_singleton_self _)

theorem calculateWeight_sma_none (q : ℚ) (w : WeightSpec) (bid : ℚ)
    (hA : w.ATH ≠ 0) :
    calculateWeight (some q) w none bid = JNum.fin 0 := by
  unfold calculateWeight
  have h1 : mayerMultiple bid none = JNum.nan := by
    unfold mayerMultiple optToJ
    rw [div_nan]
  have h2 : mayerFactor w JNum.nan = JNum.fin 0 := by
    unfold mayerFactor currentWeightMultiple
    rw [nan_div, sub_nan, mul_nan]
    rfl
  have h3 : athFactor w bid
      = JNum.fin ((w.maxATHFactor - bid / w.ATH) * (w.maxATHFactor - bid / w.ATH)) := by
    unfold athFactor
    rw [fin_div_fin _ _ hA, fin_sub_fin, fin_mul_fin]
  rw [h1]
  show round2 (optToJ (some q) * mayerFactor w JNum.nan * athFactor w bid) = JNum.fin 0
  rw [h2, h3]
  show round2 (JNum.fin q * JNum.fin 0 * JNum.fin _) = JNum.fin 0
  rw [fin_mul_fin, mul_zero, fin_mul_fin, zero_mul]
  exact round2_fin_zero

/-- C5: for every trade firing in which the resolved adjusted spend amount
is exactly zero, no order-submission call is made to the trading client and
the "purchase skipped by weighting algorithm" notification is emitted
instead. -/
theorem zero_spend_skips (t : Trade) (env : Env)
    (h : resolvedSpend t env = some (JNum.fin 0)) :
    (placeOrder t env).filter isBuy = [] ∧
    Event.skipNote (t.asset ++ t.currency) ∈ placeOrder t env :=
  placeOrder_skip_shape t env (by rw [h]; decide)

theorem zero_spend_skips_witness :
    (placeOrder c2t c2env).filter isBuy = [] ∧
    Event.skipNote (c2t.asset ++ c2t.currency) ∈ placeOrder c2t c2env :=
  zero_spend_skips c2t c2env (by decide)

/-- C2 counterexample: with both indicator fetch attempts failed (retries
exhausted, SMA absent), the firing submits no order at all — in particular
not one with the configured static `quoteOrderQty` of 100 — and instead
emits the skip notification. -/
theorem sma_exhausted_counterexample :
    getSMA_run (FetchOutcome.errBody "rate limit") FetchOutcome.transportErr = none ∧
    (placeOrder c2t c2env).filter isBuy = [] ∧
    Event.marketBuy "BTCUSD" none (some (JNum.fin 100)) ∉ placeOrder c2t c2env ∧
    Event.skipNote "BTCUSD" ∈ placeOrder c2t c2env := by
  decide

/-- C2 (amended): for every firing of a weighted USD trade with a configured
`quoteOrderQty` and nonzero ATH in which the indicator fetch exhausts its
retries (the adapter returns an absent moving average), the execution does
not fail, but it does not fall back to the static spend amount either: the
absent value propagates as NaN, the clamped mayerFactor becomes 0, the
adjusted spend rounds to 0, and the firing is skipped with a skip
notification — no order is submitted. -/
theorem sma_exhausted_skips (t : Trade) (env : Env) (w : WeightSpec) (q : ℚ)
    (hw : t.weight = some w) (hc : t.currency = "USD")
    (hs : env.smaResult = none) (hq : t.quoteOrderQty = some q) (hA : w.ATH ≠ 0) :
    (placeOrder t env).filter isBuy = [] ∧
    Event.skipNote (t.asset ++ t.currency) ∈ placeOrder t env := by
  apply placeOrder_skip_shape
  have hr : resolvedSpend t env = some (JNum.fin 0) := by
    unfold resolvedSpend
    rw [hw, hc, hs, hq]
    simp [calculateWeight_sma_none q w env.bidPrice hA]
  rw [hr]
  decide

theorem sma_exhausted_skips_witness :
    (placeOrder c2t c2env).filter isBuy = [] ∧
    Event.skipNote (c2t.asset ++ c2t.currency) ∈ placeOrder c2t c2env :=
  sma_exhausted_skips c2t c2env exW 100 rfl rfl rfl rfl (by norm_num [exW])

/-! Shape lemmas for the non-skip paths of `placeOrder`. -/

theorem placeOrder_submit_shape (t : Trade) (env : Env)
    (hz : looseEqZero (resolvedSpend t env) = false) :
    placeOrder t env = fetchEvents t
      ++ [Event.marketBuy (t.asset ++ t.currency) t.quantity (resolvedSpend t env)]
      ++ (if truthyOrderId env.orderResponse.orderId then successEvents t env
          else failureEvents t env) := by
  unfold placeOrder
  simp [hz]

theorem filter_isSendGridFail_fetchEvents (t : Trade) :
    (fetchEvents t).filter isSendGridFail = [] := by
  unfold fetchEvents
  split <;> rfl

theorem filter_isTelegramFail_fetchEvents (t : Trade) :
    (fetchEvents t).filter isTelegramFail = [] := by
  unfold fetchEvents
  split <;> rfl

theorem filter_isSave_fetchEvents (t : Trade) :
    (fetchEvents t).filter isSave = [] := by
  unfold fetchEvents
  split <;> rfl

theorem lowWarn_not_mem_fetchEvents (t : Trade) (c : String) :
    Event.lowBalanceWarn c ∉ fetchEvents t := by
  unfold fetchEvents
  split <;> simp

/-- C6: after every successful order submission, the low-balance warning is
emitted if and only if `totalCost` times the threshold 5 is strictly greater
than the free balance of the trade's currency fetched after the trade. -/
theorem low_balance_warning_iff (t : Trade) (env : Env) (b : Balance)
    (hok : truthyOrderId env.orderResponse.orderId = true)
    (hz : looseEqZero (resolvedSpend t env) = false)
    (hb : env.balances.find? (fun x => x.asset == t.currency) = some b) :
    (Event.lowBalanceWarn t.currency ∈ placeOrder t env
      ↔ env.totalCost * NUM_TRADE_THRESHOLD > b.free) := by
  rw [placeOrder_submit_shape t env hz, hok]
  unfold successEvents balanceEvents
  rw [hb]
  by_cases hgt : env.totalCost * NUM_TRADE_THRESHOLD > b.free
  · simp only [hgt, if_true]
    simp [hgt]
  · simp only [hgt, if_false]
    simp [hgt, lowWarn_not_mem_fetchEvents]

theorem low_balance_warning_iff_witness :
    Event.lowBalanceWarn "USD" ∈ placeOrder t6 env6a ∧
    Event.lowBalanceWarn "USD" ∉ placeOrder t6 env6b := by
  constructor
  · exact (low_balance_warning_iff t6 env6a { asset := "USD", free := 100 }
      (by decide) (by decide) (by decide)).mpr
      (by show (50 : ℚ) * NUM_TRADE_THRESHOLD > 100; norm_num [NUM_TRADE_THRESHOLD])
  · intro h
    have hlt := (low_balance_warning_iff t6 env6b { asset := "USD", free := 500 }
      (by decide) (by decide) (by decide)).mp h
    have : ¬ ((50 : ℚ) * NUM_TRADE_THRESHOLD > 500) := by norm_num [NUM_TRADE_THRESHOLD]
    exact this hlt

/-- C7: for every order submission whose response carries no (truthy) order
identifier, exactly one failure notification is emitted per channel — with
the upstream error message when present and non-empty, a generic message
otherwise — and no persistence call is made. -/
theorem failure_path_notifications (t : Trade) (env : Env)
    (hfail : truthyOrderId env.orderResponse.orderId = false)
    (hz : looseEqZero (resolvedSpend t env) = false) :
    (placeOrder t env).filter isSendGridFail
      = [Event.notifySendGridFail ("Buy order failed(" ++ (t.asset ++ t.currency) ++ ")")
          (errorText env.orderResponse.msg (t.asset ++ t.currency))] ∧
    (placeOrder t env).filter isTelegramFail
      = [Event.notifyTelegramFail (t.asset ++ t.currency)
          (errorText env.orderResponse.msg (t.asset ++ t.currency))] ∧
    (placeOrder t env).filter isSave = [] ∧
    (∀ m, env.orderResponse.msg = some m → m ≠ ""
      → errorText env.orderResponse.msg (t.asset ++ t.currency) = m) ∧
    (env.orderResponse.msg = none
      → errorText env.orderResponse.msg (t.asset ++ t.currency)
          = "Unexpected error placing buy order for " ++ (t.asset ++ t.currency)) := by
  rw [placeOrder_submit_shape t env hz, hfail]
  refine ⟨?_, ?_, ?_, ?_, ?_⟩
  · simp only [if_false, List.filter_append, filter_isSendGridFail_fetchEvents]
    rfl
  · simp only [if_false, List.filter_append, filter_isTelegramFail_fetchEvents]
    rfl
  · simp only [if_false, List.filter_append, filter_isSave_fetchEvents]
    rfl
  · intro m hm hne
    rw [hm]
    show (if m = "" then "Unexpected error placing buy order for "
      ++ (t.asset ++ t.currency) else m) = m
    rw [if_neg hne]
  · intro hm
    rw [hm]
    rfl

theorem failure_path_notifications_witness :
    (placeOrder t6 env7).filter isSendGridFail
      = [Event.notifySendGridFail ("Buy order failed(" ++ (t6.asset ++ t6.currency) ++ ")")
          (errorText env7.orderResponse.msg (t6.asset ++ t6.currency))] ∧
    (placeOrder t6 env7).filter isSave = [] :=
  have h := failure_path_notifications t6 env7 (by decide) (by decide)
  ⟨h.1, h.2.2.1⟩

theorem any_fetchSMA_fetchEvents (t : Trade) :
    (fetchEvents t).any isFetchSMA = weighting t := by
  unfold fetchEvents
  split
  · next h => rw [h]; rfl
  · next h => rw [Bool.eq_false_iff.mpr h]; rfl

theorem any_fetchSMA_balanceEvents (c : String) (tc : ℚ) (bs : List Balance) :
    (balanceEvents c tc bs).any isFetchSMA = false := by
  unfold balanceEvents
  split
  · rfl
  · split <;> rfl

theorem filter_isBuy_balanceEvents (c : String) (tc : ℚ) (bs : List Balance) :
    (balanceEvents c tc bs).filter isBuy = [] := by
  unfold balanceEvents
  split
  · rfl
  · split <;> rfl

theorem any_fetchSMA_placeOrder (t : Trade) (env : Env) :
    (placeOrder t env).any isFetchSMA = weighting t := by
  unfold placeOrder
  split
  · rw [List.any_append, any_fetchSMA_fetchEvents]
    simp [isFetchSMA]
  · rw [List.any_append, List.any_append, any_fetchSMA_fetchEvents]
    have h2 : (if truthyOrderId env.orderResponse.orderId then successEvents t env
        else failureEvents t env).any isFetchSMA = false := by
      split
      · unfold successEvents
        rw [List.any_append, any_fetchSMA_balanceEvents]
        rfl
      · rfl
    rw [h2]
    simp [isFetchSMA]

/-- C8: for every trade firing, the weight calculation (observable as the
indicator fetch it begins with) runs if and only if the trade's weight is
present and its currency is `"USD"`; every other trade uses the configured
static `quoteOrderQty` unchanged as the spend amount, including in the order
actually submitted. -/
theorem weighting_iff (t : Trade) (env : Env) :
    (((placeOrder t env).any isFetchSMA = true)
      ↔ (t.weight.isSome = true ∧ t.currency = "USD")) ∧
    (weighting t = false → resolvedSpend t env = t.quoteOrderQty.map JNum.fin) ∧
    (weighting t = false → looseEqZero (resolvedSpend t env) = false →
      (placeOrder t env).filter isBuy
        = [Event.marketBuy (t.asset ++ t.currency) t.quantity
            (t.quoteOrderQty.map JNum.fin)]) := by
  have hstat : weighting t = false → resolvedSpend t env = t.quoteOrderQty.map JNum.fin := by
    intro h
    unfold weighting at h
    unfold resolvedSpend
    rcases hw : t.weight with _ | w
    · rfl
    · rw [hw] at h
      simp only [Option.isSome_some, Bool.true_and] at h
      have hc : ¬ t.currency = "USD" := by simpa using h
      simp [hc]
  refine ⟨?_, hstat, ?_⟩
  · rw [any_fetchSMA_placeOrder]
    unfold weighting
    rw [Bool.and_eq_true, beq_iff_eq]
  · intro hwf hz
    rw [placeOrder_submit_shape t env hz, ← hstat hwf]
    rw [List.filter_append, List.filter_append, filter_isBuy_fetchEvents]
    have h2 : (if truthyOrderId env.orderResponse.orderId then successEvents t env
        else failureEvents t env).filter isBuy = [] := by
      split
      · unfold successEvents
        rw [List.filter_append, filter_isBuy_balanceEvents]
        rfl
      · rfl
    rw [h2]
    rfl

theorem weighting_iff_witness :
    ((placeOrder t6 env6a).any isFetchSMA = true
      ↔ (t6.weight.isSome = true ∧ t6.currency = "USD")) ∧
    resolvedSpend t6 env6a = t6.quoteOrderQty.map JNum.fin :=
  ⟨(weighting_iff t6 env6a).1, (weighting_iff t6 env6a).2.1 (by decide)⟩

theorem fetchSMA_mem_placeOrder (t : Trade) (env : Env) (s : String)
    (h : Event.fetchSMA s ∈ placeOrder t env) : Event.fetchSMA s ∈ fetchEvents t := by
  unfold placeOrder at h
  split at h
  · rcases List.mem_append.mp h with h1 | h1
    · exact h1
    · simp at h1
  · rcases List.mem_append.mp h with h1 | h1
    · rcases List.mem_append.mp h1 with h2 | h2
      · exact h2
      · simp at h2
    · exfalso
      split at h1
      · unfold successEvents at h1
        rcases List.mem_append.mp h1 with h2 | h2
        · simp at h2
        · unfold balanceEvents at h2
          split at h2
          · simp at h2
          · split at h2 <;> simp at h2
      · unfold failureEvents at h1
        simp at h1

/-- C10: the symbol that `getSMA` queries upstream never uses the caller's
currency verbatim — `"USD"` becomes `"USDT"` and anything else becomes
`"USD"` — and every indicator fetch issued by the weighting path queries
the `asset/USDT` pair. -/
theorem sma_symbol_mapping (c : String) (t : Trade) (env : Env) (s : String) :
    getSMA_currency "USD" = "USDT" ∧
    (c ≠ "USD" → getSMA_currency c = "USD") ∧
    getSMA_currency c ≠ c ∧
    (Event.fetchSMA s ∈ placeOrder t env → s = t.asset ++ "/" ++ "USDT") := by
  refine ⟨rfl, ?_, ?_, ?_⟩
  · intro h
    unfold getSMA_currency
    rw [if_neg h]
  · unfold getSMA_currency
    split
    · next h => rw [h]; decide
    · next h => exact fun he => h he.symm
  · intro hmem
    have hf := fetchSMA_mem_placeOrder t env s hmem
    unfold fetchEvents at hf
    split at hf
    · next hwt =>
      have hc : t.currency = "USD" := by
        unfold weighting at hwt
        simp only [Bool.and_eq_true, beq_iff_eq] at hwt
        exact hwt.2
      simp only [List.mem_cons, List.mem_singleton, List.not_mem_nil, or_false] at hf
      rcases hf with hf | hf
      · injection hf with hs
        rw [hs]
        unfold getSMA_symbol
        rw [hc]
        have hcc : getSMA_currency "USD" = "USDT" := rfl
        rw [hcc]
      · exact absurd hf (by simp)
    · simp at hf

theorem sma_symbol_mapping_witness :
    getSMA_currency "EUR" = "USD" ∧ getSMA_currency "USD" ≠ "USD" :=
  ⟨(sma_symbol_mapping "EUR" c2t c2env "x").2.1 (by decide),
   (sma_symbol_mapping "USD" c2t c2env "x").2.2.1⟩

/-! Startup validation: conflicting size fields and the weight spec. -/

/-- C4 counterexample: with `mayerMultipleAvg = mayerMultipleMax` startup
validation does not fail — `checkForParameters` passes — and the division
in the `mayerWeightConstant` step is reached at calculation time, where it
evaluates to Infinity; the firing even submits an order whose spend amount
is Infinity. -/
theorem weight_validation_counterexample :
    checkForParameters cfg4 = true ∧
    mayerWeightConstant w44 = JNum.inf true ∧
    (placeOrder t44 env4).filter isBuy
      = [Event.marketBuy "BTCUSD" none (some (JNum.inf true))] := by
  decide

/-- C4 (amended): startup validation never inspects the weight spec —
`checkForParameters` passes for any configuration that has credentials and a
nonempty trade list, whatever the weight values — and when
`mayerMultipleAvg = mayerMultipleMax` (nonzero) the division in the
`mayerWeightConstant` step is reached at calculation time and evaluates to
Infinity under the JS arithmetic rather than failing. -/
theorem weight_spec_not_validated (cfg : Config) (w : WeightSpec)
    (hk : truthyOptStr cfg.binanceKey = true)
    (hs : truthyOptStr cfg.binanceSecret = true)
    (hn : cfg.trades.isEmpty = false)
    (havg : w.mayerMultipleAvg = w.mayerMultipleMax)
    (h0 : w.mayerMultipleAvg ≠ 0) :
    checkForParameters cfg = true ∧ mayerWeightConstant w = JNum.inf true := by
  constructor
  · unfold checkForParameters
    rw [hk, hs, hn]
    rfl
  · unfold mayerWeightConstant
    have hm0 : w.mayerMultipleMax ≠ 0 := by rw [← havg]; exact h0
    rw [havg, fin_div_fin _ _ hm0, div_self hm0, fin_sub_fin, sub_self]
    show JNum.div (JNum.fin 1) (JNum.fin 0) = JNum.inf true
    norm_num [JNum.div]

theorem weight_spec_not_validated_witness :
    checkForParameters cfg4 = true ∧ mayerWeightConstant w44 = JNum.inf true :=
  weight_spec_not_validated cfg4 w44 (by decide) (by decide) (by decide)
    (by show (2 : ℚ) = 2; rfl) (by show (2 : ℚ) ≠ 0; norm_num)

/-- C3 counterexample: a conflicting trade later in the list aborts startup,
but only after the earlier valid trade has already been executed — its order
submission is part of the processed prefix, so it is not the case that no
trade is submitted before the conflict aborts startup. -/
theorem conflict_validation_counterexample :
    conflictTrade tConflict = true ∧
    runBot cfg3 env3
      = RunResult.conflictAbort [SchedEvent.executedNow (placeOrder tGood env3)] ∧
    (placeOrder tGood env3).filter isBuy ≠ [] := by
  decide

theorem processTrades_conflict_split (env : Env) (t : Trade) (post : List Trade)
    (hv : invalidTrade t = false) (hc : conflictTrade t = true) :
    ∀ pre : List Trade, (processTrades env pre).2 = none →
      processTrades env (pre ++ t :: post)
        = ((processTrades env pre).1, some conflictMsg) := by
  intro pre
  induction pre with
  | nil =>
    intro _
    show processTrades env (t :: post) = (([] : List SchedEvent), some conflictMsg)
    simp [processTrades, hv, hc]
  | cons p ps ih =>
    intro hpre
    simp only [List.cons_append, processTrades, List.append_eq] at hpre ⊢
    by_cases hip : invalidTrade p = true
    · simp only [hip, if_true] at hpre ⊢
      simp only [ih hpre]
    · rw [if_neg hip] at hpre ⊢
      by_cases hcp : conflictTrade p = true
      · rw [if_pos hcp] at hpre
        simp at hpre
      · rw [if_neg hcp] at hpre ⊢
        by_cases hsp : truthyOptStr p.schedule = true
        · rw [if_pos hsp] at hpre ⊢
          simp only [ih hpre]
          simp [hip, hcp, hsp]
        · rw [if_neg hsp] at hpre ⊢
          simp only [ih hpre]
          simp [hip, hcp, hsp]

/-- C3 (amended): a trade with both `quantity` and `quoteOrderQty` set does
abort the whole startup with the conflicting-size error, but only when the
loop reaches it: trades earlier in the list have already been executed
immediately or registered on timers by then (they form the processed prefix
of the aborted run), and the startup summary is not sent. -/
theorem conflict_aborts_after_earlier_trades (cfg : Config) (env : Env)
    (pre post : List Trade) (t : Trade)
    (hcfg : checkForParameters cfg = true)
    (hmsg : truthyOptStr env.accountMsg = false)
    (hct : env.canTrade = true)
    (htr : cfg.trades = pre ++ t :: post)
    (hpre : (processTrades env pre).2 = none)
    (hv : invalidTrade t = false) (hc : conflictTrade t = true) :
    runBot cfg env = RunResult.conflictAbort (processTrades env pre).1 := by
  unfold runBot
  rw [hcfg, hmsg, hct, htr,
    processTrades_conflict_split env t post hv hc pre hpre]
  rfl

theorem conflict_aborts_after_earlier_trades_witness :
    runBot cfg3 env3 = RunResult.conflictAbort (processTrades env3 [tGood]).1 :=
  conflict_aborts_after_earlier_trades cfg3 env3 [tGood] [] tConflict
    (by decide) (by decide) (by decide) (by decide) (by decide) (by decide) (by decide)

end DcaBot
